import Mathlib

/-!
# Verification of the bevy-bird gameplay loop

Shallow embedding of the gameplay systems of `src/main.rs` (a side-scrolling
arcade loop: a physics-driven bird, procedurally spawned ring obstacles, a
score counter and a Running/Ended session state machine).

Conventions of the embedding:
* `f32` positions and parameters are modelled as exact rationals (`ℚ`); all
  the computations the theorems touch are exact in `f32` on the relevant
  ranges, or clamp to constants, so the rational model is faithful.
* The score (`i32` in the source) is modelled as `ℤ`.
* ECS resources and singleton components are gathered into explicit state
  records (`World` for the per-tick systems, `Session` for the
  enter/exit-state systems); each Bevy system becomes a function on that
  record, mirroring the Rust body statement by statement.
* The only floating-point subtlety any claim touches is NaN propagation in
  `bird_rotates_with_velocity`; for that we use a small IEEE-flavoured value
  type `F` (a float is either NaN or carries a finite value), with the
  numeric content of `normalize`/`atan2`/`PI` left as parameters since only
  NaN-ness and exact zeros matter.
-/

/-- `SCREEN_WIDTH` from `main.rs`. -/
def SCREEN_WIDTH : ℚ := 1280

/-- `SCREEN_HEIGHT` from `main.rs`. -/
def SCREEN_HEIGHT : ℚ := 720

/-- The `ObstacleConfig` resource: difficulty parameters. The Rust field
`y_mid_range: RangeInclusive<f32>` is flattened into its two endpoints
`y_mid_low`/`y_mid_high`. -/
structure ObstacleConfig where
  min_x_between : ℚ
  y_mid_low : ℚ
  y_mid_high : ℚ
  y_mid_offset : ℚ
deriving DecidableEq

/-- `impl Default for ObstacleConfig`: `min_x_between: 650.0`,
`y_mid_range: -100.0..=100.0`, `y_mid_offset: 125.0`. -/
def ObstacleConfig.default : ObstacleConfig :=
  { min_x_between := 650
    y_mid_low := -100
    y_mid_high := 100
    y_mid_offset := 125 }

/-- The system `score_increases_difficulty`, as the code computes it (result of
recomputing the `ObstacleConfig` resource from the current score).

Note on the third field: the Rust source writes
`(-200.0_f32.max(default.y_mid_range.start() - score))`, and in Rust a method
call binds tighter than unary minus, so this is `-(200.0.max(-100.0 - score))`,
not `(-200.0).max(-100.0 - score)`. The embedding keeps the parse the compiler
uses. -/
def score_increases_difficulty (score : ℤ) : ObstacleConfig :=
  let s : ℚ := (score : ℚ)
  let d := ObstacleConfig.default
  { min_x_between := max 500 (d.min_x_between - s)
    y_mid_offset := max 100 (d.y_mid_offset - s)
    y_mid_low := -(max 200 (d.y_mid_low - s))
    y_mid_high := min 200 (d.y_mid_high + s) }

/-- Modelled from the spec (§4.3): the spec states the lower endpoint of the
gate-center range as `y_mid_range.low = max(-range_cap, default_range.low -
score)` with `range_cap = 200` and `default_range.low = -100`. Kept separate
from `score_increases_difficulty` so the two can be compared. -/
def spec_difficulty_low (score : ℤ) : ℚ :=
  max (-200) (-100 - (score : ℚ))

/-- C1: the code's recomputed difficulty parameters versus the claimed clamped
formulas, for every score `≥ 0`. Three of the four formulas match the claim
(`min_x_between = max(500, 650-score)`, `y_mid_offset = max(100, 125-score)`,
`y_mid_range.high = min(200, 100+score)`), the range is never inverted, and the
score-300 scenario holds; but the code's `y_mid_range.low` is the constant
`-200` for every score `≥ 0` (a Rust precedence slip), which differs from the
claimed `max(-200, -100-score)` already at score `0` (`-200` versus `-100`). -/
theorem score_difficulty_code_vs_claim :
    (∀ score : ℕ,
      (score_increases_difficulty (score : ℤ)).min_x_between
          = max 500 (650 - (score : ℚ)) ∧
      (score_increases_difficulty (score : ℤ)).y_mid_offset
          = max 100 (125 - (score : ℚ)) ∧
      (score_increases_difficulty (score : ℤ)).y_mid_high
          = min 200 (100 + (score : ℚ)) ∧
      (score_increases_difficulty (score : ℤ)).y_mid_low = -200 ∧
      (score_increases_difficulty (score : ℤ)).y_mid_low
          ≤ (score_increases_difficulty (score : ℤ)).y_mid_high) ∧
    (score_increases_difficulty 300).min_x_between = 500 ∧
    (score_increases_difficulty 300).y_mid_offset = 100 ∧
    (score_increases_difficulty 0).y_mid_low = -200 ∧
    spec_difficulty_low 0 = -100 ∧
    (score_increases_difficulty 0).y_mid_low ≠ spec_difficulty_low 0 := by
  refine ⟨fun score => ?_, ?_, ?_, ?_, ?_, ?_⟩
  · have hs : (0 : ℚ) ≤ (((score : ℤ)) : ℚ) := by positivity
    have hlow : max 200 (ObstacleConfig.default.y_mid_low - (((score : ℤ)) : ℚ)) = 200 := by
      rw [max_eq_left]
      simp only [ObstacleConfig.default]
      linarith
    refine ⟨rfl, rfl, rfl, ?_, ?_⟩
    · simp only [score_increases_difficulty, hlow]
    · simp only [score_increases_difficulty, hlow]
      have : (100 : ℚ) ≤ min 200 (ObstacleConfig.default.y_mid_high + (((score : ℤ)) : ℚ)) := by
        simp only [ObstacleConfig.default]
        refine le_min (by norm_num) (by linarith)
      linarith
  · simp only [score_increases_difficulty, ObstacleConfig.default]
    norm_num
  · simp only [score_increases_difficulty, ObstacleConfig.default]
    norm_num
  · simp only [score_increases_difficulty, ObstacleConfig.default]
    norm_num
  · simp only [spec_difficulty_low]
    norm_num
  · simp only [score_increases_difficulty, spec_difficulty_low, ObstacleConfig.default]
    norm_num

/-! ## Collision events and the per-tick world -/

/-- `bevy_rapier2d::CollisionEvent`: begin-contact (`Started`) or end-contact
(`Stopped`), each carrying the two participating entities and event flags
(modelled as bare naturals; `increment_score` never inspects them). -/
inductive CollisionEvent where
  | Started (a b : ℕ) (flags : ℕ)
  | Stopped (a b : ℕ) (flags : ℕ)
deriving DecidableEq

/-- Number of begin-contact (`Started`) events in one tick's event list. -/
def countStarted : List CollisionEvent → ℤ
  | [] => 0
  | CollisionEvent.Started _ _ _ :: es => 1 + countStarted es
  | CollisionEvent.Stopped _ _ _ :: es => countStarted es

/-- `GameState` from `main.rs`. -/
inductive GameState where
  | Running
  | Ended
deriving DecidableEq

/-- `Group` bitmasks from rapier's `CollisionGroups`: `Group::ALL` is the full
32-bit mask, `Group::NONE` is `0`. -/
def Group.ALL : ℕ := 4294967295

/-- `Group::NONE`. -/
def Group.NONE : ℕ := 0

/-- An IEEE-flavoured `f32` value for the rotation pipeline: either NaN, or a
finite float whose numeric content is carried as a rational. (The model has no
infinities; none of the operations the code performs on the values we track
can produce one.) -/
inductive F where
  | nan : F
  | val (q : ℚ) : F
deriving DecidableEq

/-- `f32::is_nan`. -/
def is_nanF : F → Bool
  | F.nan => true
  | F.val _ => false

/-- `f32` multiplication on tracked values: NaN is absorbing, finite values
multiply. -/
def mulF : F → F → F
  | F.val a, F.val b => F.val (a * b)
  | _, _ => F.nan

/-- `f32` division on tracked values: NaN absorbing; a zero divisor is mapped
to NaN (the code only ever divides by the literal `180.0`, so this corner is
never exercised). -/
def divF : F → F → F
  | F.val a, F.val b => if b = 0 then F.nan else F.val (a / b)
  | _, _ => F.nan

/-- `f32::atan2` on tracked values: NaN if either argument is NaN, otherwise a
finite value given by the numeric model `atan2Q` (the claims only depend on
NaN-ness, not on the transcendental value). -/
def atan2F (atan2Q : ℚ → ℚ → ℚ) : F → F → F
  | F.val y, F.val x => F.val (atan2Q y x)
  | _, _ => F.nan

/-- `Vec2::normalize`: the zero vector normalizes to `(NaN, NaN)` (0/0 in each
component); a nonzero vector yields finite components whose numeric content is
given by the model `normQ`. -/
def normalizeF (normQ : ℚ × ℚ → ℚ × ℚ) (v : ℚ × ℚ) : F × F :=
  if v.1 = 0 ∧ v.2 = 0 then (F.nan, F.nan)
  else (F.val (normQ v).1, F.val (normQ v).2)

/-- The rotation computed by `bird_rotates_with_velocity` from the bird's
linear velocity `v`:
`normalize`, `y.atan2(x)`, the `is_nan` guard replacing NaN by `0.0`, then
`rotation * PI / 180.0 * 5.0`. `piQ` is the numeric stand-in for `PI`. -/
def rotationFromVelocity (normQ : ℚ × ℚ → ℚ × ℚ) (atan2Q : ℚ → ℚ → ℚ)
    (piQ : ℚ) (v : ℚ × ℚ) : F :=
  let nv := normalizeF normQ v
  let rotation := atan2F atan2Q nv.2 nv.1
  let rotation := if is_nanF rotation then F.val 0 else rotation
  mulF (divF (mulF rotation (F.val piQ)) (F.val 180)) (F.val 5)

/-- The per-tick game state touched by the `Running`-state systems: the
`Score` resource, the bird's `Bird { alive }` flag, its rapier components
(velocity, external impulse, transform translation, transform rotation `z`,
`CollisionGroups`), and the pending `NextState` resource (none while no
transition is queued). -/
structure World where
  score : ℤ
  alive : Bool
  vel : ℚ × ℚ
  impulse : ℚ × ℚ
  pos : ℚ × ℚ
  rot_z : F
  memberships : ℕ
  filters : ℕ
  nextState : Option GameState
deriving DecidableEq

/-- The system `increment_score`: fold over the tick's `CollisionEvent` list,
adding `1` to the `Score` resource for each `Started` event and skipping the
rest. -/
def increment_score (events : List CollisionEvent) (w : World) : World :=
  { w with
    score :=
      events.foldl
        (fun s e =>
          match e with
          | CollisionEvent.Started _ _ _ => s + 1
          | CollisionEvent.Stopped _ _ _ => s) w.score }

/-- The system `kill_bird_on_collision` (run when a `ContactForceEvent` is
delivered): set both collision-group masks of the bird to `Group::NONE` and
flip `alive` to `false`. -/
def kill_bird_on_collision (w : World) : World :=
  { w with
    memberships := Group.NONE
    filters := Group.NONE
    alive := false }

/-- The system `end_on_bird_leaves_screen`: queue `NextState(Ended)` exactly
when the bird's vertical position leaves `±SCREEN_HEIGHT/2` by more than the
margin `50`. -/
def end_on_bird_leaves_screen (w : World) : World :=
  if w.pos.2 < -1 * SCREEN_HEIGHT / 2 - 50 ∨ w.pos.2 > SCREEN_HEIGHT / 2 + 50 then
    { w with nextState := some GameState.Ended }
  else w

/-- The system `jump_on_space`: on a just-pressed space with a live bird, zero
the vertical velocity and set the external impulse to `(0, 50)`; otherwise do
nothing. -/
def jump_on_space (pressed : Bool) (w : World) : World :=
  if !pressed then w
  else if !w.alive then w
  else { w with vel := (w.vel.1, 0), impulse := (0, 50) }

/-- The system `bird_rotates_with_velocity`: for a live bird, write
`rotationFromVelocity` of its velocity into the transform's `z` rotation; for
a dead bird, return early leaving everything unchanged. -/
def bird_rotates_with_velocity (normQ : ℚ × ℚ → ℚ × ℚ) (atan2Q : ℚ → ℚ → ℚ)
    (piQ : ℚ) (w : World) : World :=
  if !w.alive then w
  else { w with rot_z := rotationFromVelocity normQ atan2Q piQ w.vel }

/-- Helper: the score fold of `increment_score` adds exactly the number of
`Started` events to its accumulator. -/
lemma increment_score_foldl (events : List CollisionEvent) (s : ℤ) :
    events.foldl
        (fun s e =>
          match e with
          | CollisionEvent.Started _ _ _ => s + 1
          | CollisionEvent.Stopped _ _ _ => s) s
      = s + countStarted events := by
  induction events generalizing s with
  | nil => simp [countStarted]
  | cons e es ih =>
    cases e with
    | Started x y fl =>
      simp only [List.foldl_cons, countStarted, ih (s + 1)]
      ring
    | Stopped x y fl =>
      simp only [List.foldl_cons, countStarted, ih s]

/-- Helper: `countStarted` is non-negative. -/
lemma countStarted_nonneg (events : List CollisionEvent) :
    0 ≤ countStarted events := by
  induction events with
  | nil => simp [countStarted]
  | cons e es ih =>
    cases e with
    | Started x y fl => simp only [countStarted]; omega
    | Stopped x y fl => simp only [countStarted]; omega

/-- A per-tick world holding score `s` (the other fields are the post-restart
defaults; `increment_score` never reads them). -/
def baseWorld (s : ℤ) : World :=
  { score := s, alive := true, vel := (0, 0), impulse := (0, 0), pos := (0, 0),
    rot_z := F.val 0, memberships := Group.ALL, filters := Group.ALL,
    nextState := none }

/-- Running `increment_score` over a whole sequence of ticks, starting from
score `s` (each tick contributing its own event list). -/
def runTicksScore (ticks : List (List CollisionEvent)) (s : ℤ) : ℤ :=
  ticks.foldl (fun s events => (increment_score events (baseWorld s)).score) s

/-- C2: processing one tick's collision-event list adds exactly `countStarted`
(one per `Started` event, nothing for `Stopped` events, whatever the body
pair), touches nothing but the score, and over every sequence of ticks the
score is non-decreasing and each tick's increase is bounded by that tick's
number of begin events. -/
theorem increment_score_correct :
    (∀ (events : List CollisionEvent) (w : World),
      (increment_score events w).score = w.score + countStarted events ∧
      (increment_score events w).alive = w.alive ∧
      (increment_score events w).nextState = w.nextState ∧
      w.score ≤ (increment_score events w).score ∧
      (increment_score events w).score - w.score ≤ countStarted events) ∧
    (∀ (ticks : List (List CollisionEvent)) (s : ℤ), s ≤ runTicksScore ticks s) := by
  have hstep : ∀ (events : List CollisionEvent) (w : World),
      (increment_score events w).score = w.score + countStarted events := by
    intro events w
    simp only [increment_score]
    exact increment_score_foldl events w.score
  constructor
  · intro events w
    refine ⟨hstep events w, rfl, rfl, ?_, ?_⟩
    · rw [hstep events w]
      have := countStarted_nonneg events
      omega
    · rw [hstep events w]
      omega
  · intro ticks
    induction ticks with
    | nil => intro s; simp [runTicksScore]
    | cons t ts ih =>
      intro s
      have h1 : runTicksScore (t :: ts) s
          = runTicksScore ts (s + countStarted t) := by
        simp only [runTicksScore, List.foldl_cons, hstep, baseWorld]
      rw [h1]
      have h2 := countStarted_nonneg t
      have h3 := ih (s + countStarted t)
      omega

/-! ## Scoring/death interaction, idempotence, dead-bird behaviour -/

/-- C5: when a tick delivers both a sensor begin-contact event (one `Started`
entry in the collision-event list) and a lethal hard-contact event (so
`kill_bird_on_collision` runs), the scoring handler and the death handler
commute, and the final state has the score incremented by `1` and
`alive = false`. -/
theorem score_death_commute (w : World) (events : List CollisionEvent)
    (h : countStarted events = 1) :
    increment_score events (kill_bird_on_collision w)
        = kill_bird_on_collision (increment_score events w) ∧
    (increment_score events (kill_bird_on_collision w)).score = w.score + 1 ∧
    (increment_score events (kill_bird_on_collision w)).alive = false := by
  refine ⟨rfl, ?_, rfl⟩
  have h1 : (increment_score events (kill_bird_on_collision w)).score
      = (kill_bird_on_collision w).score + countStarted events := by
    simp only [increment_score]
    exact increment_score_foldl events (kill_bird_on_collision w).score
  rw [h1, h]
  rfl

/-- Witness for `score_death_commute` at a concrete world and a one-event
tick. -/
theorem score_death_commute_witness :
    countStarted [CollisionEvent.Started 1 2 0] = 1 ∧
    (increment_score [CollisionEvent.Started 1 2 0]
        (kill_bird_on_collision (baseWorld 0))).score = (baseWorld 0).score + 1 ∧
    (increment_score [CollisionEvent.Started 1 2 0]
        (kill_bird_on_collision (baseWorld 0))).alive = false :=
  ⟨by decide,
    (score_death_commute (baseWorld 0) [CollisionEvent.Started 1 2 0] (by decide)).2.1,
    (score_death_commute (baseWorld 0) [CollisionEvent.Started 1 2 0] (by decide)).2.2⟩

/-- C9: the lethal-contact handler is idempotent — a second application yields
exactly the state of the first (`alive = false`, both collision-group masks
`Group::NONE`), and it touches nothing else (score, position, velocity,
impulse, rotation and the queued next state are preserved), so repeated lethal
events coalesce to a single death. -/
theorem kill_bird_idempotent (w : World) :
    kill_bird_on_collision (kill_bird_on_collision w) = kill_bird_on_collision w ∧
    (kill_bird_on_collision w).alive = false ∧
    (kill_bird_on_collision w).memberships = Group.NONE ∧
    (kill_bird_on_collision w).filters = Group.NONE ∧
    (kill_bird_on_collision w).score = w.score ∧
    (kill_bird_on_collision w).pos = w.pos ∧
    (kill_bird_on_collision w).vel = w.vel ∧
    (kill_bird_on_collision w).impulse = w.impulse ∧
    (kill_bird_on_collision w).rot_z = w.rot_z ∧
    (kill_bird_on_collision w).nextState = w.nextState :=
  ⟨rfl, rfl, rfl, rfl, rfl, rfl, rfl, rfl, rfl, rfl⟩

/-- C8: with a dead bird (`alive = false`), the jump system returns without
applying any impulse or touching the velocity, and the rotation system returns
without touching the transform — both leave the whole world unchanged. -/
theorem dead_bird_ignores_input (pressed : Bool) (normQ : ℚ × ℚ → ℚ × ℚ)
    (atan2Q : ℚ → ℚ → ℚ) (piQ : ℚ) (w : World) (h : w.alive = false) :
    jump_on_space pressed w = w ∧
    bird_rotates_with_velocity normQ atan2Q piQ w = w := by
  constructor
  · cases pressed <;> simp [jump_on_space, h]
  · simp [bird_rotates_with_velocity, h]

/-- Witness for `dead_bird_ignores_input` at a concrete dead world. -/
theorem dead_bird_ignores_input_witness :
    (kill_bird_on_collision (baseWorld 0)).alive = false ∧
    jump_on_space true (kill_bird_on_collision (baseWorld 0))
        = kill_bird_on_collision (baseWorld 0) ∧
    bird_rotates_with_velocity (fun v => v) (fun y x => y + x) 3
        (kill_bird_on_collision (baseWorld 0))
      = kill_bird_on_collision (baseWorld 0) :=
  ⟨rfl,
    (dead_bird_ignores_input true (fun v => v) (fun y x => y + x) 3
      (kill_bird_on_collision (baseWorld 0)) rfl).1,
    (dead_bird_ignores_input true (fun v => v) (fun y x => y + x) 3
      (kill_bird_on_collision (baseWorld 0)) rfl).2⟩

/-! ## Rotation pipeline: NaN handling -/

/-- Helper: the rotation value computed from any velocity is never NaN. -/
lemma rotationFromVelocity_not_nan (normQ : ℚ × ℚ → ℚ × ℚ)
    (atan2Q : ℚ → ℚ → ℚ) (piQ : ℚ) (v : ℚ × ℚ) :
    is_nanF (rotationFromVelocity normQ atan2Q piQ v) = false := by
  by_cases hv : v.1 = 0 ∧ v.2 = 0 <;>
    simp [rotationFromVelocity, normalizeF, atan2F, is_nanF, mulF, divF, hv,
      (by norm_num : (180 : ℚ) ≠ 0)]

/-- Helper: on the zero velocity (whose normalization is NaN), the guard in
the rotation pipeline produces exactly `0.0`. -/
lemma rotationFromVelocity_zero (normQ : ℚ × ℚ → ℚ × ℚ)
    (atan2Q : ℚ → ℚ → ℚ) (piQ : ℚ) :
    rotationFromVelocity normQ atan2Q piQ (0, 0) = F.val 0 := by
  simp [rotationFromVelocity, normalizeF, atan2F, is_nanF, mulF, divF,
    (by norm_num : (180 : ℚ) ≠ 0)]

/-- C10: for every velocity of a live bird, the rotation system writes a
well-defined (non-NaN) rotation into the transform, and when normalization
yields NaN (the zero-velocity vector), the rotation written is exactly `0`. -/
theorem rotation_written_not_nan (normQ : ℚ × ℚ → ℚ × ℚ)
    (atan2Q : ℚ → ℚ → ℚ) (piQ : ℚ) (w : World) (h : w.alive = true) :
    is_nanF ((bird_rotates_with_velocity normQ atan2Q piQ w).rot_z) = false ∧
    (w.vel = (0, 0) →
      (bird_rotates_with_velocity normQ atan2Q piQ w).rot_z = F.val 0) := by
  constructor
  · simp only [bird_rotates_with_velocity, h, Bool.not_true, Bool.false_eq_true,
      if_false]
    exact rotationFromVelocity_not_nan normQ atan2Q piQ w.vel
  · intro hv
    simp only [bird_rotates_with_velocity, h, Bool.not_true, Bool.false_eq_true,
      if_false, hv]
    exact rotationFromVelocity_zero normQ atan2Q piQ

/-- Witness for `rotation_written_not_nan` at a live world with velocity
`(0, 0)`. -/
theorem rotation_written_not_nan_witness :
    (baseWorld 0).alive = true ∧ (baseWorld 0).vel = (0, 0) ∧
    (bird_rotates_with_velocity (fun v => v) (fun y x => y + x) 3
        (baseWorld 0)).rot_z = F.val 0 :=
  ⟨rfl, rfl,
    (rotation_written_not_nan (fun v => v) (fun y x => y + x) 3
      (baseWorld 0) rfl).2 rfl⟩

/-! ## Session-end triggers -/

/-- C4 counterexample: a lethal contact alone does not enter `Ended`. In a
running world with the bird at the origin, processing the lethal-contact
handler — and even running the out-of-bounds check afterwards in the same
tick — leaves no `Ended` transition queued: `kill_bird_on_collision` never
inserts `NextState(Ended)`; only `end_on_bird_leaves_screen` does, and the
bird is still inside the bounds. -/
theorem lethal_contact_does_not_end_session :
    (end_on_bird_leaves_screen (kill_bird_on_collision (baseWorld 0))).nextState
      = none := by
  have h : ¬((kill_bird_on_collision (baseWorld 0)).pos.2
        < -1 * SCREEN_HEIGHT / 2 - 50 ∨
      (kill_bird_on_collision (baseWorld 0)).pos.2 > SCREEN_HEIGHT / 2 + 50) := by
    norm_num [kill_bird_on_collision, baseWorld, SCREEN_HEIGHT]
  simp only [end_on_bird_leaves_screen]
  rw [if_neg h]
  rfl

/-- C4 (amended): while Running, the only `Running → Ended` trigger is the
out-of-bounds check — `end_on_bird_leaves_screen` queues `Ended` exactly when
the bird's vertical position exceeds `±SCREEN_HEIGHT/2` by more than the
margin `50`, and is the identity otherwise; `kill_bird_on_collision` preserves
the queued next state (and the position), merely flipping `alive` off and
stripping the collision groups. -/
theorem session_end_triggers (w : World) :
    (kill_bird_on_collision w).nextState = w.nextState ∧
    (kill_bird_on_collision w).pos = w.pos ∧
    ((w.pos.2 < -1 * SCREEN_HEIGHT / 2 - 50 ∨ w.pos.2 > SCREEN_HEIGHT / 2 + 50) →
      (end_on_bird_leaves_screen w).nextState = some GameState.Ended) ∧
    (¬(w.pos.2 < -1 * SCREEN_HEIGHT / 2 - 50 ∨ w.pos.2 > SCREEN_HEIGHT / 2 + 50) →
      end_on_bird_leaves_screen w = w) := by
  refine ⟨rfl, rfl, ?_, ?_⟩
  · intro h
    simp only [end_on_bird_leaves_screen]
    rw [if_pos h]
  · intro h
    simp only [end_on_bird_leaves_screen]
    rw [if_neg h]

/-- Witness for `session_end_triggers` at a world whose bird is `500` above
the origin (beyond the `360 + 50` threshold). -/
theorem session_end_triggers_witness :
    (end_on_bird_leaves_screen
        { baseWorld 0 with pos := ((0 : ℚ), (500 : ℚ)) }).nextState
      = some GameState.Ended :=
  (session_end_triggers { baseWorld 0 with pos := ((0 : ℚ), (500 : ℚ)) }).2.2.1
    (by right; show (500 : ℚ) > SCREEN_HEIGHT / 2 + 50; norm_num [SCREEN_HEIGHT])

/-! ## Obstacle spawning and reclamation -/

/-- `f32::MIN` exactly (`-(2 - 2^-23) * 2^127`); the code uses it as the
stand-in for "no obstacles exist" when taking the maximum obstacle
position. -/
def f32_MIN : ℚ := -340282346638528859811704183484516925440

/-- The maximum horizontal position among existing obstacles, as
`spawn_obstacles` computes it: a fold of `max` with initial value `f32::MIN`
(`.max().unwrap_or(FloatOrd(f32::MIN))`). -/
def max_obstacle_x (obstacles : List ℚ) : ℚ :=
  obstacles.foldl max f32_MIN

/-- The system `spawn_obstacles`, reduced to its spawn decision: given the
bird's horizontal position and the positions of the existing obstacles, either
do nothing (`none`) or materialize exactly one obstacle at the returned
position (the gate center and half-height only parameterize the spawned
children, not the decision or the position). -/
def spawn_obstacles (bird_x : ℚ) (obstacles : List ℚ)
    (cfg : ObstacleConfig) : Option ℚ :=
  let m := max_obstacle_x obstacles
  let screen_edge := bird_x + SCREEN_WIDTH / 2
  let spawn_at := screen_edge + 50
  if spawn_at - m < cfg.min_x_between then none
  else some spawn_at

/-- The system `despawn_offscreen_obstacles`: keep exactly the obstacles whose
horizontal position is at least `bird_x - SCREEN_WIDTH/2 - 50`; the rest are
despawned. -/
def despawn_offscreen_obstacles (bird_x : ℚ) (obstacles : List ℚ) : List ℚ :=
  let screen_edge := bird_x - SCREEN_WIDTH / 2
  let despawn_from := screen_edge - 50
  obstacles.filter (fun x => decide (despawn_from ≤ x))

/-- Helper: the initial accumulator bounds a `max` fold from below. -/
lemma foldl_max_init_le (l : List ℚ) (a : ℚ) : a ≤ l.foldl max a := by
  induction l generalizing a with
  | nil => simp
  | cons x xs ih => exact le_trans (le_max_left a x) (ih (max a x))

/-- Helper: every member bounds a `max` fold from below. -/
lemma mem_le_foldl_max (l : List ℚ) (a o : ℚ) (h : o ∈ l) :
    o ≤ l.foldl max a := by
  induction l generalizing a with
  | nil => cases h
  | cons x xs ih =>
    rcases List.mem_cons.mp h with h1 | h2
    · subst h1
      exact le_trans (le_max_right a o) (foldl_max_init_le xs (max a o))
    · exact ih (max a x) h2

/-- C3: the spawner spawns at most one obstacle per tick (the result is
`none` or a single position, always `bird_x + SCREEN_WIDTH/2 + 50`); it spawns
exactly when that candidate is at least `min_x_between` ahead of the maximum
existing obstacle position (with `f32::MIN` standing in for "no obstacles" —
so with no obstacles it always spawns for any remotely representable bird
position and any difficulty at most the default spacing); a spawned obstacle
is at least `min_x_between` ahead of, and strictly ahead of (for positive
spacing), every existing obstacle; and the concrete scenario holds: bird at
`0`, no obstacles, default config (`min_x_between = 650`), one obstacle at
`690`. -/
theorem spawn_obstacles_correct (bird_x : ℚ) (obstacles : List ℚ)
    (cfg : ObstacleConfig) :
    (spawn_obstacles bird_x obstacles cfg = none ∨
      spawn_obstacles bird_x obstacles cfg
        = some (bird_x + SCREEN_WIDTH / 2 + 50)) ∧
    ((spawn_obstacles bird_x obstacles cfg).isSome = true ↔
      cfg.min_x_between
        ≤ bird_x + SCREEN_WIDTH / 2 + 50 - max_obstacle_x obstacles) ∧
    (∀ x, spawn_obstacles bird_x obstacles cfg = some x →
      ∀ o ∈ obstacles, o + cfg.min_x_between ≤ x) ∧
    (0 < cfg.min_x_between → ∀ x, spawn_obstacles bird_x obstacles cfg = some x →
      ∀ o ∈ obstacles, o < x) ∧
    (obstacles = [] → cfg.min_x_between ≤ 650 → -(10 ^ 30) ≤ bird_x →
      (spawn_obstacles bird_x obstacles cfg).isSome = true) ∧
    spawn_obstacles 0 [] ObstacleConfig.default = some 690 := by
  have hiff : (spawn_obstacles bird_x obstacles cfg).isSome = true ↔
      cfg.min_x_between
        ≤ bird_x + SCREEN_WIDTH / 2 + 50 - max_obstacle_x obstacles := by
    by_cases hc : bird_x + SCREEN_WIDTH / 2 + 50 - max_obstacle_x obstacles
        < cfg.min_x_between
    · simp only [spawn_obstacles]
      rw [if_pos hc]
      simp only [Option.isSome_none, Bool.false_eq_true, false_iff, not_le]
      exact hc
    · simp only [spawn_obstacles]
      rw [if_neg hc]
      simp only [Option.isSome_some, true_iff]
      linarith [not_lt.mp hc]
  have hval : ∀ x, spawn_obstacles bird_x obstacles cfg = some x →
      x = bird_x + SCREEN_WIDTH / 2 + 50 ∧
      cfg.min_x_between
        ≤ bird_x + SCREEN_WIDTH / 2 + 50 - max_obstacle_x obstacles := by
    intro x hx
    by_cases hc : bird_x + SCREEN_WIDTH / 2 + 50 - max_obstacle_x obstacles
        < cfg.min_x_between
    · simp only [spawn_obstacles] at hx
      rw [if_pos hc] at hx
      cases hx
    · simp only [spawn_obstacles] at hx
      rw [if_neg hc] at hx
      exact ⟨(Option.some_inj.mp hx).symm, not_lt.mp hc⟩
  refine ⟨?_, hiff, ?_, ?_, ?_, ?_⟩
  · by_cases hc : bird_x + SCREEN_WIDTH / 2 + 50 - max_obstacle_x obstacles
        < cfg.min_x_between
    · left
      simp only [spawn_obstacles]
      rw [if_pos hc]
    · right
      simp only [spawn_obstacles]
      rw [if_neg hc]
  · intro x hx o ho
    obtain ⟨hx1, hx2⟩ := hval x hx
    have := mem_le_foldl_max obstacles f32_MIN o ho
    simp only [max_obstacle_x] at hx2
    linarith
  · intro hpos x hx o ho
    obtain ⟨hx1, hx2⟩ := hval x hx
    have := mem_le_foldl_max obstacles f32_MIN o ho
    simp only [max_obstacle_x] at hx2
    linarith
  · intro hempty hcfg hbird
    rw [hiff, hempty]
    simp only [max_obstacle_x, List.foldl_nil, f32_MIN, SCREEN_WIDTH]
    linarith
  · simp only [spawn_obstacles, max_obstacle_x, List.foldl_nil, f32_MIN,
      SCREEN_WIDTH, ObstacleConfig.default]
    norm_num

/-- Witness for `spawn_obstacles_correct`: with the bird at `0`, no obstacles
and the default difficulty, the empty-case conjunct fires and the spawner
creates the obstacle at `690`. -/
theorem spawn_obstacles_correct_witness :
    (spawn_obstacles 0 [] ObstacleConfig.default).isSome = true ∧
    spawn_obstacles 0 [] ObstacleConfig.default = some 690 :=
  ⟨(spawn_obstacles_correct 0 [] ObstacleConfig.default).2.2.2.2.1 rfl
      (by norm_num [ObstacleConfig.default]) (by norm_num),
    (spawn_obstacles_correct 0 [] ObstacleConfig.default).2.2.2.2.2⟩

/-- C7: the reclamation step keeps exactly the obstacles whose horizontal
position is at least `bird_x - SCREEN_WIDTH/2 - 50` (equivalently, it destroys
exactly those strictly more than `SCREEN_WIDTH/2 + 50` behind the bird), and
it is idempotent: a second run with the bird unmoved destroys nothing
further. -/
theorem despawn_offscreen_correct (bird_x : ℚ) (obstacles : List ℚ) :
    (∀ o : ℚ, o ∈ despawn_offscreen_obstacles bird_x obstacles ↔
      o ∈ obstacles ∧ bird_x - SCREEN_WIDTH / 2 - 50 ≤ o) ∧
    despawn_offscreen_obstacles bird_x (despawn_offscreen_obstacles bird_x obstacles)
      = despawn_offscreen_obstacles bird_x obstacles := by
  constructor
  · intro o
    simp [despawn_offscreen_obstacles, List.mem_filter]
  · simp only [despawn_offscreen_obstacles]
    rw [List.filter_filter]
    simp

/-! ## Session restart -/

/-- The bird entity as `setup_bird` creates it: the `Bird { alive }` flag,
`Velocity::zero()` and the transform translation (the sprite `z`-layer `1.0`
is render layering, not gameplay position, and is omitted). -/
structure BirdEnt where
  alive : Bool
  vel : ℚ × ℚ
  pos : ℚ × ℚ
deriving DecidableEq

/-- The session-level world touched by the `Running` enter/exit systems:
the `Score` and `ObstacleConfig` resources (`none` when removed), the spawned
obstacle and background-tile positions, the two bound-collider heights, the
bird entity (`none` when despawned), the UI root and the camera offset. -/
structure Session where
  score : Option ℤ
  config : Option ObstacleConfig
  obstacles : List ℚ
  tiles : List ℚ
  bounds : List ℚ
  bird : Option BirdEnt
  ui : Bool
  camera_x : ℚ
deriving DecidableEq

/-- The `GameState::Running` exit systems: despawn every `Bird`,
`ObstacleBundle`, `Bounds`, `GameUi` and `TilingBackground` entity and remove
the `ObstacleConfig` and `Score` resources. -/
def exit_running (s : Session) : Session :=
  { s with
    bird := none
    obstacles := []
    bounds := []
    ui := false
    tiles := []
    config := none
    score := none }

/-- The `GameState::Running` enter systems: insert `ObstacleConfig::default()`
and `Score::default()` (zero), spawn the bird alive with zero velocity at the
origin (`setup_bird`), spawn the two bound colliders at `∓SCREEN_HEIGHT/2`
(`setup_bounds`), rebuild the UI (`setup_ui`) and reset the camera to the
world origin (`reset_camera`). -/
def enter_running (s : Session) : Session :=
  { s with
    config := some ObstacleConfig.default
    score := some 0
    bird := some { alive := true, vel := (0, 0), pos := (0, 0) }
    bounds := [-1 * SCREEN_HEIGHT / 2, SCREEN_HEIGHT / 2]
    ui := true
    camera_x := 0 }

/-- The `Ended → Running` restart (`immediately_restart_game` queues
`Running`; applying the transition runs the exit systems then the enter
systems). -/
def restart (s : Session) : Session :=
  enter_running (exit_running s)

/-- C6: after any restart, the score is `0`, the bird exists alive with zero
velocity at the origin, the difficulty parameters are back at their defaults,
no obstacle or background tile of the prior session remains, and the camera is
back at the world origin. -/
theorem restart_resets (s : Session) :
    (restart s).score = some 0 ∧
    (restart s).bird = some { alive := true, vel := (0, 0), pos := (0, 0) } ∧
    (restart s).config = some ObstacleConfig.default ∧
    (restart s).obstacles = [] ∧
    (restart s).tiles = [] ∧
    (restart s).camera_x = 0 :=
  ⟨rfl, rfl, rfl, rfl, rfl, rfl⟩
